import Mathlib

/-
Verification of the clone orchestration workflow of the db-clone-tool
repository (src/main.py).  The Python program is a Textual TUI that clones
one PostgreSQL database into another by shelling out to pg_dump, pg_restore
and psql, then verifying the target through two catalog queries.

The embedding below is a shallow one: the orchestration coroutine
CloneScreen.run_clone_process and its four phase helpers (create_dump,
restore_dump, reset_sequences, verify_clone) are translated into a
deterministic function from a World - the results the external tools and
the verification connection would produce - to a trace of observable
events (progress updates, log lines, temp-file recordings, subprocess
invocations with argument list and environment, catalog queries, and
unlink attempts) together with a final outcome.  Strings, argument lists
and log lines are transcribed verbatim from the source.  Python str.lower
is modelled with ASCII case mapping and slicing with character-based take,
which agree with the source on all ASCII data the claims mention.
-/

namespace DbClone

/-- leadsOf p l checks that p is a leading segment of l (generic lists). -/
def leadsOf {α : Type} [BEq α] : List α → List α → Bool
  | [], _ => true
  | _ :: _, [] => false
  | a :: as, b :: bs => a == b && leadsOf as bs

/-- hasSubList pat l checks that pat occurs contiguously inside l. -/
def hasSubList {α : Type} [BEq α] (pat : List α) : List α → Bool
  | [] => leadsOf pat []
  | c :: cs => leadsOf pat (c :: cs) || hasSubList pat cs

/-- Model of the Python substring test (the in operator) on strings. -/
def strHasSub (s pat : String) : Bool := hasSubList pat.data s.data

/-- Model of a string ending with a given suffix text. -/
def strEndsWith (s post : String) : Bool := leadsOf post.data.reverse s.data.reverse

/-- Model of Python str.lower, restricted to ASCII case mapping. -/
def strToLower (s : String) : String := ⟨s.data.map Char.toLower⟩

/-- Model of the Python slice s[:n] (character based). -/
def strTake (s : String) (n : Nat) : String := ⟨s.data.take n⟩

/-- DatabaseConfig from src/main.py lines 26-45: one connection profile. -/
structure DatabaseConfig where
  host : String
  port : Nat
  database : String
  username : String
  password : String
  ssl : Bool
deriving DecidableEq

/-- connection_string property, src/main.py lines 36-39. -/
def DatabaseConfig.connection_string (c : DatabaseConfig) : String :=
  "postgresql://" ++ c.username ++ ":" ++ c.password ++ "@" ++ c.host ++ ":" ++
    toString c.port ++ "/" ++ c.database ++ (if c.ssl then "?sslmode=require" else "")

/-- Process environments are modelled as association lists, first key wins. -/
abbrev EnvMap := List (String × String)

/-- Setting one key of a copied environment (dict update). -/
def setEnvVar (env : EnvMap) (k v : String) : EnvMap :=
  (k, v) :: env.filter (fun p => p.1 != k)

/-- Lookup of one key in an environment. -/
def envGet (env : EnvMap) (k : String) : Option String :=
  (env.find? (fun p => p.1 == k)).map (fun p => p.2)

/-- psql_env property, src/main.py lines 41-45: copy the ambient environment
and overlay PGPASSWORD with the profile password. -/
def DatabaseConfig.psql_env (c : DatabaseConfig) (amb : EnvMap) : EnvMap :=
  setEnvVar amb "PGPASSWORD" c.password

/-- Result of one external process invocation: exit code and captured
stdout/stderr, as produced by process.communicate(). -/
structure ProcResult where
  returncode : Int
  stdout : String
  stderr : String
deriving DecidableEq

/-- World: everything outside the orchestrator that a run observes - the
temp path mkstemp allocates, the three subprocess results, the outcome of
the verification connection (counts on success, exception text on error),
and whether os.unlink raises for a given path. -/
structure World where
  dumpFile : String
  dumpResult : ProcResult
  restoreResult : ProcResult
  resetResult : ProcResult
  verifyOutcome : Except String (Nat × Nat)
  unlinkFails : String → Bool

/-- Observable events of one run of run_clone_process. -/
inductive Event where
  | progress (n : Nat)
  | logLine (s : String)
  | recordTemp (path : String)
  | subproc (cmd : List String) (env : EnvMap)
  | query (sql : String)
  | unlinkAttempt (path : String) (ok : Bool)
deriving DecidableEq

/-- Final outcome of the try/except around the phase sequence. -/
inductive Outcome where
  | success
  | fatal (msg : String)
deriving DecidableEq

/-- pg_dump argument list, src/main.py lines 279-287. -/
def dumpCmd (source : DatabaseConfig) (dump_file : String) : List String :=
  ["pg_dump", source.connection_string, "--format=custom", "--no-owner",
   "--no-privileges", "--verbose", "-f", dump_file]

/-- pg_restore argument list, src/main.py lines 312-325. -/
def restoreCmd (target : DatabaseConfig) (dump_file : String) : List String :=
  ["pg_restore", "--disable-triggers", "--clean", "--if-exists", "--no-owner",
   "--no-privileges", "--verbose", "-h", target.host, "-p", toString target.port,
   "-U", target.username, "-d", target.database, dump_file]

/-- The sequence reset SQL block, src/main.py lines 350-376, transcribed with
its SQL comment lines elided and quotes written as escapes. -/
def reset_sql : String :=
  "\n        DO $$\n        DECLARE\n            seq_record RECORD;\n            table_name TEXT;\n            max_val BIGINT;\n        BEGIN\n            FOR seq_record IN \n                SELECT schemaname, sequencename \n                FROM pg_sequences \n                WHERE schemaname = \x27public\x27\n            LOOP\n                table_name := regexp_replace(seq_record.sequencename, \x27_id_seq$\x27, \x27\x27);\n                EXECUTE format(\x27SELECT COALESCE(MAX(id), 0) FROM %I\x27, table_name) INTO max_val;\n                EXECUTE format(\x27SELECT setval(%L, %s)\x27, \n                    seq_record.schemaname || \x27.\x27 || seq_record.sequencename, \n                    GREATEST(max_val + 1, 1));\n                RAISE NOTICE \x27Reset sequence % to %\x27, seq_record.sequencename, GREATEST(max_val + 1, 1);\n            END LOOP;\n        END $$;\n        "

/-- psql argument list for the sequence reset, src/main.py lines 379-386. -/
def resetCmd (target : DatabaseConfig) : List String :=
  ["psql", "-h", target.host, "-p", toString target.port, "-U", target.username,
   "-d", target.database, "-c", reset_sql]

/-- First verification query, src/main.py line 419. -/
def tablesQuery : String :=
  "SELECT COUNT(*) FROM information_schema.tables WHERE table_schema = \x27public\x27"

/-- Second verification query, src/main.py line 422. -/
def sequencesQuery : String :=
  "SELECT COUNT(*) FROM pg_sequences WHERE schemaname = \x27public\x27"

/-- create_dump, src/main.py lines 267-303: allocate a temp file, record it
in temp_files, invoke pg_dump, raise when the exit code is non-zero.
Returns the emitted events, the updated temp_files list, and either the
dump file path or the exception message. -/
def create_dump (amb : EnvMap) (source : DatabaseConfig) (w : World)
    (temp_files : List String) : List Event × List String × Except String String :=
  let dump_file := w.dumpFile
  let temps := temp_files ++ [dump_file]
  let events : List Event :=
    [Event.recordTemp dump_file,
     Event.logLine ("📊 Creating dump from " ++ source.host ++ "/" ++ source.database ++ "..."),
     Event.subproc (dumpCmd source dump_file) (source.psql_env amb)]
  if w.dumpResult.returncode != 0 then
    (events, temps, Except.error ("pg_dump failed: " ++ w.dumpResult.stderr))
  else
    (events ++ [Event.logLine "✓ Database dump created successfully"], temps,
     Except.ok dump_file)

/-- restore_dump, src/main.py lines 305-344: invoke pg_restore, always log
completion, then log a truncated warning when stderr is non-empty and
contains warning or error case-insensitively.  The exit code is never
inspected and nothing is raised. -/
def restore_dump (amb : EnvMap) (target : DatabaseConfig) (w : World)
    (dump_file : String) : List Event :=
  [Event.logLine ("📦 Restoring to " ++ target.host ++ "/" ++ target.database ++ "..."),
   Event.subproc (restoreCmd target dump_file) (target.psql_env amb),
   Event.logLine "✓ Database restore completed"]
  ++ (if w.restoreResult.stderr != "" then
        (if strHasSub (strToLower w.restoreResult.stderr) "warning"
            || strHasSub (strToLower w.restoreResult.stderr) "error" then
           [Event.logLine ("⚠️  Restore warnings/errors (often ignorable): "
              ++ strTake w.restoreResult.stderr 200 ++ "...")]
         else [])
      else [])

/-- reset_sequences, src/main.py lines 346-401: invoke psql -c with the
reset SQL; log success on exit code 0, otherwise log a warning. -/
def reset_sequences (amb : EnvMap) (target : DatabaseConfig) (w : World) : List Event :=
  [Event.subproc (resetCmd target) (target.psql_env amb)]
  ++ (if w.resetResult.returncode == 0 then
        [Event.logLine "✓ Sequences reset successfully"]
      else
        [Event.logLine ("⚠️  Sequence reset warnings: " ++ w.resetResult.stderr)])

/-- verify_clone, src/main.py lines 403-430: connect to the target, run the
two count queries and log the summary; any exception is caught and logged
as a warning. -/
def verify_clone (w : World) : List Event :=
  match w.verifyOutcome with
  | Except.ok (tc, sc) =>
      [Event.query tablesQuery, Event.query sequencesQuery,
       Event.logLine ("✓ Verification complete: " ++ toString tc ++ " tables, "
         ++ toString sc ++ " sequences")]
  | Except.error e => [Event.logLine ("⚠️  Verification failed: " ++ e)]

/-- run_clone_process, src/main.py lines 223-265: the four phases in
sequence inside try/except, with progress updates at phase boundaries and
a finally block that unlinks every recorded temp file, swallowing unlink
errors.  Only create_dump can raise; the except branch logs the error and
the outcome is fatal. -/
def run_clone_process (amb : EnvMap) (source target : DatabaseConfig) (w : World) :
    List Event × Outcome :=
  match create_dump amb source w [] with
  | (des, temps, Except.error e) =>
      (Event.logLine "🚀 Starting database clone process..." :: Event.progress 10 ::
        ((des ++ [Event.logLine ("❌ Error during clone process: " ++ e)])
          ++ temps.map (fun p => Event.unlinkAttempt p (!(w.unlinkFails p)))),
       Outcome.fatal e)
  | (des, temps, Except.ok dump_file) =>
      (Event.logLine "🚀 Starting database clone process..." :: Event.progress 10 ::
        ((des
            ++ [Event.progress 40, Event.logLine "📥 Restoring to target database..."]
            ++ restore_dump amb target w dump_file
            ++ [Event.progress 70, Event.logLine "🔄 Resetting sequences..."]
            ++ reset_sequences amb target w
            ++ [Event.progress 90, Event.logLine "✅ Verifying clone..."]
            ++ verify_clone w
            ++ [Event.progress 100,
                Event.logLine "🎉 Database clone completed successfully!"])
          ++ temps.map (fun p => Event.unlinkAttempt p (!(w.unlinkFails p)))),
       Outcome.success)

/-- State of the target database as the reset SQL sees it: the sequences of
the public schema and, for each table name, MAX(id) - none when the table
has no rows. -/
structure DbState where
  sequences : List String
  maxId : String → Option Int

/-- Model of regexp_replace(name, the anchored pattern _id_seq$, empty):
remove a trailing _id_seq when present. -/
def stripIdSeq (s : String) : String :=
  if strEndsWith s "_id_seq" then ⟨s.data.take (s.data.length - 7)⟩ else s

/-- Value the reset SQL assigns to one sequence: GREATEST(max_val + 1, 1)
where max_val is COALESCE(MAX(id), 0) of the table obtained by stripping
the _id_seq suffix. -/
def seqTarget (db : DbState) (sq : String) : Int :=
  max ((db.maxId (stripIdSeq sq)).getD 0 + 1) 1

/-- Semantics of the DO block of reset_sql over a database state: every
sequence of the public schema is set to its seqTarget value. -/
def reset_sequences_sem (db : DbState) : List (String × Int) :=
  db.sequences.map (fun sq => (sq, seqTarget db sq))

/-- Selector for progress events. -/
def selProgress : Event → Option Nat
  | Event.progress n => some n
  | Event.logLine _ => none
  | Event.recordTemp _ => none
  | Event.subproc _ _ => none
  | Event.query _ => none
  | Event.unlinkAttempt _ _ => none

/-- Selector for log lines. -/
def selLog : Event → Option String
  | Event.progress _ => none
  | Event.logLine s => some s
  | Event.recordTemp _ => none
  | Event.subproc _ _ => none
  | Event.query _ => none
  | Event.unlinkAttempt _ _ => none

/-- Selector for recorded temp paths. -/
def selTemp : Event → Option String
  | Event.progress _ => none
  | Event.logLine _ => none
  | Event.recordTemp p => some p
  | Event.subproc _ _ => none
  | Event.query _ => none
  | Event.unlinkAttempt _ _ => none

/-- Selector for subprocess invocations (argument list and environment). -/
def selSubproc : Event → Option (List String × EnvMap)
  | Event.progress _ => none
  | Event.logLine _ => none
  | Event.recordTemp _ => none
  | Event.subproc c e => some (c, e)
  | Event.query _ => none
  | Event.unlinkAttempt _ _ => none

/-- Selector for catalog queries. -/
def selQuery : Event → Option String
  | Event.progress _ => none
  | Event.logLine _ => none
  | Event.recordTemp _ => none
  | Event.subproc _ _ => none
  | Event.query q => some q
  | Event.unlinkAttempt _ _ => none

/-- Progress values reported during a trace, in order. -/
def progressOf (es : List Event) : List Nat := es.filterMap selProgress

/-- Log lines of a trace, in order. -/
def logsOf (es : List Event) : List String := es.filterMap selLog

/-- Temp paths recorded during a trace, in order. -/
def tempsOf (es : List Event) : List String := es.filterMap selTemp

/-- Subprocess invocations of a trace, in order. -/
def subprocsOf (es : List Event) : List (List String × EnvMap) := es.filterMap selSubproc

/-- External tool names invoked during a trace, in order. -/
def toolsRun (es : List Event) : List String :=
  (subprocsOf es).map (fun pr => pr.1.headD "")

/-- Catalog queries of a trace, in order. -/
def queriesOf (es : List Event) : List String := es.filterMap selQuery

/-- Boolean strict increase of a list of numbers. -/
def strictIncr : List Nat → Bool
  | [] => true
  | [_] => true
  | a :: b :: t => decide (a < b) && strictIncr (b :: t)

/-- Disk contents after a trace: a path initially present survives unless
some unlink attempt on it succeeded. -/
def finalDisk (disk0 : String → Bool) (es : List Event) (p : String) : Bool :=
  disk0 p && !(decide (Event.unlinkAttempt p true ∈ es))

/-- A concrete ambient environment used by the witness runs. -/
def ambA : EnvMap := [("PATH", "/usr/bin")]

/-- A concrete source profile. -/
def srcA : DatabaseConfig := ⟨"prod.example.com", 5432, "proddb", "alice", "pw123", false⟩

/-- A concrete target profile. -/
def tgtA : DatabaseConfig := ⟨"localhost", 5433, "localdb", "bob", "pw456", true⟩

/-- A successful process result. -/
def okRes : ProcResult := ⟨0, "", ""⟩

/-- A world in which every phase succeeds and verification sees 5 tables
and 3 sequences. -/
def wOk : World :=
  ⟨"/tmp/db_clone_a.custom", okRes, okRes, okRes, Except.ok (5, 3), fun _ => false⟩

/-- A world in which pg_dump exits 1 with stderr boom. -/
def wFail : World :=
  ⟨"/tmp/db_clone_b.custom", ⟨1, "", "boom"⟩, okRes, okRes, Except.ok (0, 0), fun _ => false⟩

/-- A world in which pg_restore exits 2 with a warning on stderr. -/
def wWarn : World :=
  ⟨"/tmp/db_clone_c.custom", okRes, ⟨2, "", "WARNING: errors ignored on restore"⟩, okRes,
   Except.ok (5, 3), fun _ => false⟩

/-- A world in which the verification connection raises. -/
def wVerr : World :=
  ⟨"/tmp/db_clone_d.custom", okRes, okRes, okRes, Except.error "connection refused",
   fun _ => false⟩

/-- The database state of the specification example: users(id) with max id
42 and orders(id) with no rows, each with its id sequence. -/
def exampleDb : DbState :=
  ⟨["users_id_seq", "orders_id_seq"], fun tb => if tb == "users" then some 42 else none⟩

/-- A profile whose database name itself ends in the SSL parameter text. -/
def cfgBad : DatabaseConfig := ⟨"h", 1, "x?sslmode=require", "u", "p", false⟩

/-- Closed form of a run whose dump tool exits non-zero. -/
theorem run_eq_fail (amb : EnvMap) (s t : DatabaseConfig) (w : World)
    (hb : (w.dumpResult.returncode != 0) = true) :
    run_clone_process amb s t w =
      ([Event.logLine "🚀 Starting database clone process...",
        Event.progress 10,
        Event.recordTemp w.dumpFile,
        Event.logLine ("📊 Creating dump from " ++ s.host ++ "/" ++ s.database ++ "..."),
        Event.subproc (dumpCmd s w.dumpFile) (s.psql_env amb),
        Event.logLine ("❌ Error during clone process: "
          ++ ("pg_dump failed: " ++ w.dumpResult.stderr)),
        Event.unlinkAttempt w.dumpFile (!(w.unlinkFails w.dumpFile))],
       Outcome.fatal ("pg_dump failed: " ++ w.dumpResult.stderr)) := by
  simp [run_clone_process, create_dump, hb]

/-- Closed form of a run whose dump tool exits zero. -/
theorem run_eq_ok (amb : EnvMap) (s t : DatabaseConfig) (w : World)
    (hb : (w.dumpResult.returncode != 0) = false) :
    run_clone_process amb s t w =
      (Event.logLine "🚀 Starting database clone process..." ::
       Event.progress 10 ::
       Event.recordTemp w.dumpFile ::
       Event.logLine ("📊 Creating dump from " ++ s.host ++ "/" ++ s.database ++ "...") ::
       Event.subproc (dumpCmd s w.dumpFile) (s.psql_env amb) ::
       Event.logLine "✓ Database dump created successfully" ::
       Event.progress 40 ::
       Event.logLine "📥 Restoring to target database..." ::
       (restore_dump amb t w w.dumpFile
         ++ Event.progress 70 :: Event.logLine "🔄 Resetting sequences..." ::
            (reset_sequences amb t w
              ++ Event.progress 90 :: Event.logLine "✅ Verifying clone..." ::
                 (verify_clone w
                   ++ [Event.progress 100,
                       Event.logLine "🎉 Database clone completed successfully!",
                       Event.unlinkAttempt w.dumpFile (!(w.unlinkFails w.dumpFile))]))),
       Outcome.success) := by
  simp [run_clone_process, create_dump, hb]

/-- The restore phase reports no progress value. -/
theorem progressOf_restore (amb : EnvMap) (t : DatabaseConfig) (w : World) (df : String) :
    progressOf (restore_dump amb t w df) = [] := by
  unfold restore_dump progressOf
  cases hb1 : (w.restoreResult.stderr != "") <;>
    cases hb2 : (strHasSub (strToLower w.restoreResult.stderr) "warning"
        || strHasSub (strToLower w.restoreResult.stderr) "error") <;>
      simp [hb1, hb2, selProgress]

/-- The sequence reset phase reports no progress value. -/
theorem progressOf_reset (amb : EnvMap) (t : DatabaseConfig) (w : World) :
    progressOf (reset_sequences amb t w) = [] := by
  unfold reset_sequences progressOf
  cases hb : (w.resetResult.returncode == 0) <;> simp [hb, selProgress]

/-- The verify phase reports no progress value. -/
theorem progressOf_verify (w : World) : progressOf (verify_clone w) = [] := by
  unfold verify_clone progressOf
  cases hv : w.verifyOutcome with
  | ok pr => cases pr; simp [selProgress]
  | error e => simp [selProgress]

/-- The restore phase records no temp file. -/
theorem tempsOf_restore (amb : EnvMap) (t : DatabaseConfig) (w : World) (df : String) :
    tempsOf (restore_dump amb t w df) = [] := by
  unfold restore_dump tempsOf
  cases hb1 : (w.restoreResult.stderr != "") <;>
    cases hb2 : (strHasSub (strToLower w.restoreResult.stderr) "warning"
        || strHasSub (strToLower w.restoreResult.stderr) "error") <;>
      simp [hb1, hb2, selTemp]

/-- The sequence reset phase records no temp file. -/
theorem tempsOf_reset (amb : EnvMap) (t : DatabaseConfig) (w : World) :
    tempsOf (reset_sequences amb t w) = [] := by
  unfold reset_sequences tempsOf
  cases hb : (w.resetResult.returncode == 0) <;> simp [hb, selTemp]

/-- The verify phase records no temp file. -/
theorem tempsOf_verify (w : World) : tempsOf (verify_clone w) = [] := by
  unfold verify_clone tempsOf
  cases hv : w.verifyOutcome with
  | ok pr => cases pr; simp [selTemp]
  | error e => simp [selTemp]

/-- The restore phase runs no catalog query. -/
theorem queriesOf_restore (amb : EnvMap) (t : DatabaseConfig) (w : World) (df : String) :
    queriesOf (restore_dump amb t w df) = [] := by
  unfold restore_dump queriesOf
  cases hb1 : (w.restoreResult.stderr != "") <;>
    cases hb2 : (strHasSub (strToLower w.restoreResult.stderr) "warning"
        || strHasSub (strToLower w.restoreResult.stderr) "error") <;>
      simp [hb1, hb2, selQuery]

/-- The sequence reset phase runs no catalog query. -/
theorem queriesOf_reset (amb : EnvMap) (t : DatabaseConfig) (w : World) :
    queriesOf (reset_sequences amb t w) = [] := by
  unfold reset_sequences queriesOf
  cases hb : (w.resetResult.returncode == 0) <;> simp [hb, selQuery]

/-- The restore phase performs exactly the pg_restore invocation. -/
theorem subprocsOf_restore (amb : EnvMap) (t : DatabaseConfig) (w : World) (df : String) :
    subprocsOf (restore_dump amb t w df) = [(restoreCmd t df, t.psql_env amb)] := by
  unfold restore_dump subprocsOf
  cases hb1 : (w.restoreResult.stderr != "") <;>
    cases hb2 : (strHasSub (strToLower w.restoreResult.stderr) "warning"
        || strHasSub (strToLower w.restoreResult.stderr) "error") <;>
      simp [hb1, hb2, selSubproc]

/-- The sequence reset phase performs exactly the psql invocation. -/
theorem subprocsOf_reset (amb : EnvMap) (t : DatabaseConfig) (w : World) :
    subprocsOf (reset_sequences amb t w) = [(resetCmd t, t.psql_env amb)] := by
  unfold reset_sequences subprocsOf
  cases hb : (w.resetResult.returncode == 0) <;> simp [hb, selSubproc]

/-- The verify phase performs no subprocess invocation. -/
theorem subprocsOf_verify (w : World) : subprocsOf (verify_clone w) = [] := by
  unfold verify_clone subprocsOf
  cases hv : w.verifyOutcome with
  | ok pr => cases pr; simp [selSubproc]
  | error e => simp [selSubproc]

/-- The restore completion line is always logged by the restore phase. -/
theorem restore_completed_mem (amb : EnvMap) (t : DatabaseConfig) (w : World) (df : String) :
    Event.logLine "✓ Database restore completed" ∈ restore_dump amb t w df := by
  unfold restore_dump
  simp

/-- The reset phase always contains its psql invocation event. -/
theorem reset_subproc_mem (amb : EnvMap) (t : DatabaseConfig) (w : World) :
    Event.subproc (resetCmd t) (t.psql_env amb) ∈ reset_sequences amb t w := by
  unfold reset_sequences
  simp

/-- A list leads every extension of itself. -/
theorem leadsOf_self_append {α : Type} [BEq α] [LawfulBEq α] (p l : List α) :
    leadsOf p (p ++ l) = true := by
  induction p with
  | nil => simp [leadsOf]
  | cons a as ih => simp [leadsOf, ih]

/-- A substring occurrence survives prepending on the left. -/
theorem hasSubList_append_left {α : Type} [BEq α] (p a c : List α)
    (h : hasSubList p c = true) : hasSubList p (a ++ c) = true := by
  induction a with
  | nil => simpa using h
  | cons x xs ih => simp [hasSubList, ih]

/-- Every list occurs at the head of its own extension. -/
theorem hasSubList_self_append {α : Type} [BEq α] [LawfulBEq α] (p l : List α) :
    hasSubList p (p ++ l) = true := by
  cases p with
  | nil => cases l <;> simp [hasSubList, leadsOf]
  | cons a as =>
      simp only [List.cons_append, hasSubList]
      have h := leadsOf_self_append (a :: as) l
      rw [List.cons_append] at h
      simp [h]

/-- strHasSub holds whenever the string splits around the pattern. -/
theorem strHasSub_of_eq (s pre mid suf : String)
    (h : s.data = pre.data ++ (mid.data ++ suf.data)) : strHasSub s mid = true := by
  unfold strHasSub
  rw [h]
  exact hasSubList_append_left _ _ _ (hasSubList_self_append _ _)

/-- A string always ends with its appended tail. -/
theorem strEndsWith_append (a b : String) : strEndsWith (a ++ b) b = true := by
  unfold strEndsWith
  rw [String.data_append, List.reverse_append]
  exact leadsOf_self_append _ _

/-- The head character survives appending on the right. -/
theorem head_append (a b : String) (c : Char) (h : a.data.head? = some c) :
    (a ++ b).data.head? = some c := by
  rw [String.data_append]
  cases hd : a.data with
  | nil => rw [hd] at h; simp at h
  | cons y ys =>
      rw [hd] at h
      simp at h
      simp [h]

/-- Strings with distinct head characters are distinct. -/
theorem ne_of_head {a b : String} {c d : Char} (ha : a.data.head? = some c)
    (hb : b.data.head? = some d) (hcd : c ≠ d) : a ≠ b := by
  intro e
  subst e
  rw [ha] at hb
  exact hcd (Option.some.inj hb)

/-- C2: the sequence-reset phase runs the reset SQL block through psql, and
that block sets every sequence named table_id_seq of the public schema to
GREATEST(COALESCE(MAX(id), 0) + 1, 1); on the example database with
users(id) max 42 and orders(id) empty it yields users_id_seq 43 and
orders_id_seq 1. -/
theorem claim_C2 (amb : EnvMap) (s t : DatabaseConfig) (w : World)
    (h : w.dumpResult.returncode = 0) :
    Event.subproc (resetCmd t) (t.psql_env amb) ∈ (run_clone_process amb s t w).1
    ∧ (resetCmd t).getLast? = some reset_sql
    ∧ reset_sequences_sem exampleDb = [("users_id_seq", 43), ("orders_id_seq", 1)]
    ∧ (∀ db sq, sq ∈ db.sequences → strEndsWith sq "_id_seq" = true →
        (sq, max ((db.maxId (stripIdSeq sq)).getD 0 + 1) 1) ∈ reset_sequences_sem db) := by
  have hb : (w.dumpResult.returncode != 0) = false := by simp [h]
  refine ⟨?_, ?_, ?_, ?_⟩
  · rw [run_eq_ok amb s t w hb]
    have hm := reset_subproc_mem amb t w
    simp only [List.mem_cons, List.mem_append]
    tauto
  · rfl
  · decide
  · intro db sq hmem _
    simpa [reset_sequences_sem, seqTarget] using List.mem_map_of_mem
      (fun sq => (sq, seqTarget db sq)) hmem

/-- Witness for C2 at the concrete successful world. -/
theorem claim_C2_witness :
    Event.subproc (resetCmd tgtA) (tgtA.psql_env ambA) ∈ (run_clone_process ambA srcA tgtA wOk).1
    ∧ reset_sequences_sem exampleDb = [("users_id_seq", 43), ("orders_id_seq", 1)] := by
  have h := claim_C2 ambA srcA tgtA wOk rfl
  exact ⟨h.1, h.2.2.1⟩

/-- C1: when the dump tool exits non-zero the whole job aborts with a
failure report - the only tool invoked is pg_dump, no catalog query runs,
the outcome is fatal with the pg_dump stderr, the error is logged - and
every recorded temp file still gets its unlink attempt, leaving it off the
disk whenever unlink does not fail. -/
theorem claim_C1 (amb : EnvMap) (s t : DatabaseConfig) (w : World) (d0 : String → Bool)
    (h : w.dumpResult.returncode ≠ 0) :
    toolsRun (run_clone_process amb s t w).1 = ["pg_dump"]
    ∧ queriesOf (run_clone_process amb s t w).1 = []
    ∧ (run_clone_process amb s t w).2
        = Outcome.fatal ("pg_dump failed: " ++ w.dumpResult.stderr)
    ∧ Event.logLine ("❌ Error during clone process: "
        ++ ("pg_dump failed: " ++ w.dumpResult.stderr)) ∈ (run_clone_process amb s t w).1
    ∧ (∀ p ∈ tempsOf (run_clone_process amb s t w).1,
        Event.unlinkAttempt p (!(w.unlinkFails p)) ∈ (run_clone_process amb s t w).1
        ∧ (w.unlinkFails p = false →
            finalDisk d0 (run_clone_process amb s t w).1 p = false)) := by
  have hb : (w.dumpResult.returncode != 0) = true := by simpa using h
  rw [run_eq_fail amb s t w hb]
  refine ⟨?_, ?_, rfl, ?_, ?_⟩
  · simp [toolsRun, subprocsOf, selSubproc, dumpCmd]
  · simp [queriesOf, selQuery]
  · simp
  · intro p hp
    simp [tempsOf, selTemp] at hp
    subst hp
    constructor
    · simp
    · intro hf
      rw [hf]
      have hmem : Event.unlinkAttempt w.dumpFile true
          ∈ [Event.logLine "🚀 Starting database clone process...",
             Event.progress 10,
             Event.recordTemp w.dumpFile,
             Event.logLine ("📊 Creating dump from " ++ s.host ++ "/" ++ s.database ++ "..."),
             Event.subproc (dumpCmd s w.dumpFile) (s.psql_env amb),
             Event.logLine ("❌ Error during clone process: "
               ++ ("pg_dump failed: " ++ w.dumpResult.stderr)),
             Event.unlinkAttempt w.dumpFile (!false)] := by simp
      simp [finalDisk, decide_eq_true hmem]

/-- Witness for C1 at the concrete failing world. -/
theorem claim_C1_witness :
    toolsRun (run_clone_process ambA srcA tgtA wFail).1 = ["pg_dump"]
    ∧ (run_clone_process ambA srcA tgtA wFail).2
        = Outcome.fatal ("pg_dump failed: " ++ wFail.dumpResult.stderr) := by
  have h := claim_C1 ambA srcA tgtA wFail (fun _ => true) (by decide)
  exact ⟨h.1, h.2.2.1⟩

/-- In a run with a successful dump, the tools invoked are exactly pg_dump,
pg_restore and psql, in that order. -/
theorem toolsRun_run_ok (amb : EnvMap) (s t : DatabaseConfig) (w : World)
    (hb : (w.dumpResult.returncode != 0) = false) :
    toolsRun (run_clone_process amb s t w).1 = ["pg_dump", "pg_restore", "psql"] := by
  have h1 := subprocsOf_restore amb t w w.dumpFile
  have h2 := subprocsOf_reset amb t w
  have h3 := subprocsOf_verify w
  rw [run_eq_ok amb s t w hb]
  unfold toolsRun
  unfold subprocsOf at h1 h2 h3 ⊢
  simp [List.filterMap_append, selSubproc, h1, h2, h3, dumpCmd, restoreCmd, resetCmd]

/-- Every run records exactly the one dump temp file. -/
theorem tempsOf_run (amb : EnvMap) (s t : DatabaseConfig) (w : World) :
    tempsOf (run_clone_process amb s t w).1 = [w.dumpFile] := by
  cases hb : (w.dumpResult.returncode != 0) with
  | false =>
      have h1 := tempsOf_restore amb t w w.dumpFile
      have h2 := tempsOf_reset amb t w
      have h3 := tempsOf_verify w
      rw [run_eq_ok amb s t w hb]
      unfold tempsOf at h1 h2 h3 ⊢
      simp [List.filterMap_append, selTemp, h1, h2, h3]
  | true =>
      rw [run_eq_fail amb s t w hb]
      simp [tempsOf, selTemp]

/-- Every run ends with the unlink attempt on the dump temp file. -/
theorem unlink_mem_run (amb : EnvMap) (s t : DatabaseConfig) (w : World) :
    Event.unlinkAttempt w.dumpFile (!(w.unlinkFails w.dumpFile))
      ∈ (run_clone_process amb s t w).1 := by
  cases hb : (w.dumpResult.returncode != 0) with
  | false => rw [run_eq_ok amb s t w hb]; simp
  | true => rw [run_eq_fail amb s t w hb]; simp

/-- Progress of a run with a successful dump is the full sequence. -/
theorem progressOf_run_ok (amb : EnvMap) (s t : DatabaseConfig) (w : World)
    (hb : (w.dumpResult.returncode != 0) = false) :
    progressOf (run_clone_process amb s t w).1 = [10, 40, 70, 90, 100] := by
  have h1 := progressOf_restore amb t w w.dumpFile
  have h2 := progressOf_reset amb t w
  have h3 := progressOf_verify w
  rw [run_eq_ok amb s t w hb]
  unfold progressOf at h1 h2 h3 ⊢
  simp [List.filterMap_append, selProgress, h1, h2, h3]

/-- Progress of a run with a failing dump stops at 10. -/
theorem progressOf_run_fail (amb : EnvMap) (s t : DatabaseConfig) (w : World)
    (hb : (w.dumpResult.returncode != 0) = true) :
    progressOf (run_clone_process amb s t w).1 = [10] := by
  rw [run_eq_fail amb s t w hb]
  simp [progressOf, selProgress]

/-- C3: the restore phase is treated as success for every exit code and
stderr - the run is unchanged when the restore exit code changes, the
completion line is logged, the sequence-reset tool is still invoked, and
the outcome is success. -/
theorem claim_C3 (amb : EnvMap) (s t : DatabaseConfig) (w : World)
    (h : w.dumpResult.returncode = 0) :
    (∀ rcv, run_clone_process amb s t
        { w with restoreResult :=
            ProcResult.mk rcv w.restoreResult.stdout w.restoreResult.stderr }
      = run_clone_process amb s t w)
    ∧ Event.logLine "✓ Database restore completed" ∈ (run_clone_process amb s t w).1
    ∧ "psql" ∈ toolsRun (run_clone_process amb s t w).1
    ∧ (run_clone_process amb s t w).2 = Outcome.success := by
  have hb : (w.dumpResult.returncode != 0) = false := by simp [h]
  refine ⟨?_, ?_, ?_, ?_⟩
  · intro rcv
    cases w with
    | mk df dr rr sr vo uf => cases rr with | mk a b c => rfl
  · rw [run_eq_ok amb s t w hb]
    have hm := restore_completed_mem amb t w w.dumpFile
    simp only [List.mem_cons, List.mem_append]
    tauto
  · rw [toolsRun_run_ok amb s t w hb]
    simp
  · rw [run_eq_ok amb s t w hb]

/-- Witness for C3 at the concrete world whose restore exits 2. -/
theorem claim_C3_witness :
    Event.logLine "✓ Database restore completed" ∈ (run_clone_process ambA srcA tgtA wWarn).1
    ∧ "psql" ∈ toolsRun (run_clone_process ambA srcA tgtA wWarn).1
    ∧ (run_clone_process ambA srcA tgtA wWarn).2 = Outcome.success := by
  have h := claim_C3 ambA srcA tgtA wWarn rfl
  exact ⟨h.2.1, h.2.2.1, h.2.2.2⟩

/-- The restore phase does not depend on the unlink behaviour. -/
theorem restore_dump_uf (amb : EnvMap) (t : DatabaseConfig) (w : World)
    (f : String → Bool) (x : String) :
    restore_dump amb t { w with unlinkFails := f } x = restore_dump amb t w x := rfl

/-- The reset phase does not depend on the unlink behaviour. -/
theorem reset_sequences_uf (amb : EnvMap) (t : DatabaseConfig) (w : World)
    (f : String → Bool) :
    reset_sequences amb t { w with unlinkFails := f } = reset_sequences amb t w := rfl

/-- The verify phase does not depend on the unlink behaviour. -/
theorem verify_clone_uf (w : World) (f : String → Bool) :
    verify_clone { w with unlinkFails := f } = verify_clone w := rfl

/-- Log lines of a run with a successful dump, split by phase. -/
theorem logsOf_run_ok (amb : EnvMap) (s t : DatabaseConfig) (w : World)
    (hb : (w.dumpResult.returncode != 0) = false) :
    logsOf (run_clone_process amb s t w).1 =
      "🚀 Starting database clone process..." ::
      ("📊 Creating dump from " ++ s.host ++ "/" ++ s.database ++ "...") ::
      "✓ Database dump created successfully" ::
      "📥 Restoring to target database..." ::
      (logsOf (restore_dump amb t w w.dumpFile)
        ++ "🔄 Resetting sequences..." ::
           (logsOf (reset_sequences amb t w)
             ++ "✅ Verifying clone..." ::
                (logsOf (verify_clone w)
                  ++ ["🎉 Database clone completed successfully!"]))) := by
  rw [run_eq_ok amb s t w hb]
  unfold logsOf
  simp [List.filterMap_append, selLog]

/-- C4: however the run ends, every recorded temp path receives an unlink
attempt, is off the disk when its unlink does not fail, and unlink
failures are swallowed - they change neither the outcome nor the log. -/
theorem claim_C4 (amb : EnvMap) (s t : DatabaseConfig) (w : World) (d0 : String → Bool) :
    (∀ p ∈ tempsOf (run_clone_process amb s t w).1,
        Event.unlinkAttempt p (!(w.unlinkFails p)) ∈ (run_clone_process amb s t w).1)
    ∧ (∀ p ∈ tempsOf (run_clone_process amb s t w).1,
        w.unlinkFails p = false → finalDisk d0 (run_clone_process amb s t w).1 p = false)
    ∧ (∀ f : String → Bool,
        (run_clone_process amb s t { w with unlinkFails := f }).2
          = (run_clone_process amb s t w).2
        ∧ logsOf (run_clone_process amb s t { w with unlinkFails := f }).1
          = logsOf (run_clone_process amb s t w).1) := by
  refine ⟨?_, ?_, ?_⟩
  · intro p hp
    rw [tempsOf_run] at hp
    simp at hp
    subst hp
    exact unlink_mem_run amb s t w
  · intro p hp hf
    rw [tempsOf_run] at hp
    simp at hp
    subst hp
    have hm := unlink_mem_run amb s t w
    rw [hf] at hm
    simp only [Bool.not_false] at hm
    simp [finalDisk, decide_eq_true hm]
  · intro f
    cases hb : (w.dumpResult.returncode != 0) with
    | false =>
        constructor
        · rw [run_eq_ok amb s t { w with unlinkFails := f } hb, run_eq_ok amb s t w hb]
        · rw [logsOf_run_ok amb s t { w with unlinkFails := f } hb,
              logsOf_run_ok amb s t w hb]
          rfl
    | true =>
        constructor
        · rw [run_eq_fail amb s t { w with unlinkFails := f } hb,
              run_eq_fail amb s t w hb]
        · rw [run_eq_fail amb s t { w with unlinkFails := f } hb,
              run_eq_fail amb s t w hb]
          simp [logsOf, selLog]

/-- Witness for C4 at the concrete failing world with unlink errors. -/
theorem claim_C4_witness :
    (run_clone_process ambA srcA tgtA { wFail with unlinkFails := fun _ => true }).2
      = (run_clone_process ambA srcA tgtA wFail).2
    ∧ logsOf (run_clone_process ambA srcA tgtA { wFail with unlinkFails := fun _ => true }).1
      = logsOf (run_clone_process ambA srcA tgtA wFail).1 := by
  have h := claim_C4 ambA srcA tgtA wFail (fun _ => true)
  exact h.2.2 (fun _ => true)

/-- C9: every run records exactly one temp artifact - the dump file - and
records it before the dump tool is invoked, so the cleanup unlink attempt
happens even when the dump invocation fails. -/
theorem claim_C9 (amb : EnvMap) (s t : DatabaseConfig) (w : World) :
    tempsOf (run_clone_process amb s t w).1 = [w.dumpFile]
    ∧ (run_clone_process amb s t w).1.take 5 =
        [Event.logLine "🚀 Starting database clone process...",
         Event.progress 10,
         Event.recordTemp w.dumpFile,
         Event.logLine ("📊 Creating dump from " ++ s.host ++ "/" ++ s.database ++ "..."),
         Event.subproc (dumpCmd s w.dumpFile) (s.psql_env amb)]
    ∧ Event.unlinkAttempt w.dumpFile (!(w.unlinkFails w.dumpFile))
        ∈ (run_clone_process amb s t w).1 := by
  refine ⟨tempsOf_run amb s t w, ?_, unlink_mem_run amb s t w⟩
  cases hb : (w.dumpResult.returncode != 0) with
  | false =>
      rw [run_eq_ok amb s t w hb]
      rfl
  | true =>
      rw [run_eq_fail amb s t w hb]
      rfl

/-- Witness for C9 at the concrete failing world. -/
theorem claim_C9_witness :
    tempsOf (run_clone_process ambA srcA tgtA wFail).1 = [wFail.dumpFile]
    ∧ Event.unlinkAttempt wFail.dumpFile (!(wFail.unlinkFails wFail.dumpFile))
        ∈ (run_clone_process ambA srcA tgtA wFail).1 := by
  have h := claim_C9 ambA srcA tgtA wFail
  exact ⟨h.1, h.2.2⟩

/-- C10: the reported progress values form a strictly increasing leading
segment of 10, 40, 70, 90, 100; the value 100 is reported exactly when the
outcome is success, and a fatal outcome leaves the last value at 10. -/
theorem claim_C10 (amb : EnvMap) (s t : DatabaseConfig) (w : World) :
    strictIncr (progressOf (run_clone_process amb s t w).1) = true
    ∧ leadsOf (progressOf (run_clone_process amb s t w).1) [10, 40, 70, 90, 100] = true
    ∧ ((100 ∈ progressOf (run_clone_process amb s t w).1)
        ↔ (run_clone_process amb s t w).2 = Outcome.success)
    ∧ (∀ msg, (run_clone_process amb s t w).2 = Outcome.fatal msg →
        (progressOf (run_clone_process amb s t w).1).getLast? = some 10) := by
  cases hb : (w.dumpResult.returncode != 0) with
  | false =>
      have ho : (run_clone_process amb s t w).2 = Outcome.success := by
        rw [run_eq_ok amb s t w hb]
      rw [progressOf_run_ok amb s t w hb, ho]
      refine ⟨by decide, by decide, by simp, ?_⟩
      intro msg hmsg
      simp at hmsg
  | true =>
      have ho : (run_clone_process amb s t w).2
          = Outcome.fatal ("pg_dump failed: " ++ w.dumpResult.stderr) := by
        rw [run_eq_fail amb s t w hb]
      rw [progressOf_run_fail amb s t w hb, ho]
      refine ⟨by decide, by decide, by simp, ?_⟩
      intro msg hmsg
      rfl

/-- Witness for C10 at the concrete successful and failing worlds. -/
theorem claim_C10_witness :
    strictIncr (progressOf (run_clone_process ambA srcA tgtA wOk).1) = true
    ∧ leadsOf (progressOf (run_clone_process ambA srcA tgtA wFail).1) [10, 40, 70, 90, 100]
        = true := by
  exact ⟨(claim_C10 ambA srcA tgtA wOk).1, (claim_C10 ambA srcA tgtA wFail).2.1⟩

/-- The restore warning line never equals the restore start line. -/
theorem warn_ne_restoring (x hh dd : String) :
    ("⚠️  Restore warnings/errors (often ignorable): " ++ x ++ "...")
      ≠ ("📦 Restoring to " ++ hh ++ "/" ++ dd ++ "...") := by
  have ha : ("⚠️  Restore warnings/errors (often ignorable): " ++ x ++ "...").data.head?
      = some '⚠' :=
    head_append _ _ _ (head_append _ _ _ (by decide))
  have hb : ("📦 Restoring to " ++ hh ++ "/" ++ dd ++ "...").data.head? = some '📦' :=
    head_append _ _ _ (head_append _ _ _ (head_append _ _ _ (head_append _ _ _ (by decide))))
  exact ne_of_head ha hb (by decide)

/-- The restore warning line never equals the completion line. -/
theorem warn_ne_completed (x : String) :
    ("⚠️  Restore warnings/errors (often ignorable): " ++ x ++ "...")
      ≠ "✓ Database restore completed" := by
  have ha : ("⚠️  Restore warnings/errors (often ignorable): " ++ x ++ "...").data.head?
      = some '⚠' :=
    head_append _ _ _ (head_append _ _ _ (by decide))
  have hb : ("✓ Database restore completed" : String).data.head? = some '✓' := by decide
  exact ne_of_head ha hb (by decide)

/-- C7: the restore phase logs its truncated warning line exactly when the
captured stderr is non-empty and contains warning or error
case-insensitively, such a line also appears in the full run, and restore
stderr never turns the outcome into failure. -/
theorem claim_C7 (amb : EnvMap) (s t : DatabaseConfig) (w : World)
    (h : w.dumpResult.returncode = 0) :
    ((Event.logLine ("⚠️  Restore warnings/errors (often ignorable): "
        ++ strTake w.restoreResult.stderr 200 ++ "...")
        ∈ restore_dump amb t w w.dumpFile)
      ↔ (w.restoreResult.stderr ≠ ""
         ∧ (strHasSub (strToLower w.restoreResult.stderr) "warning"
            || strHasSub (strToLower w.restoreResult.stderr) "error") = true))
    ∧ ((strHasSub (strToLower w.restoreResult.stderr) "warning"
        || strHasSub (strToLower w.restoreResult.stderr) "error") = true →
        Event.logLine ("⚠️  Restore warnings/errors (often ignorable): "
          ++ strTake w.restoreResult.stderr 200 ++ "...") ∈ (run_clone_process amb s t w).1)
    ∧ (run_clone_process amb s t w).2 = Outcome.success := by
  have hb : (w.dumpResult.returncode != 0) = false := by simp [h]
  have hmemOf : ∀ hcond : (strHasSub (strToLower w.restoreResult.stderr) "warning"
      || strHasSub (strToLower w.restoreResult.stderr) "error") = true,
      Event.logLine ("⚠️  Restore warnings/errors (often ignorable): "
        ++ strTake w.restoreResult.stderr 200 ++ "...") ∈ restore_dump amb t w w.dumpFile := by
    intro hcond
    have hne : w.restoreResult.stderr ≠ "" := by
      intro he
      rw [he] at hcond
      exact absurd hcond (by decide)
    have hb1 : (w.restoreResult.stderr != "") = true := by simpa using hne
    unfold restore_dump
    simp [hb1, hcond]
  refine ⟨?_, ?_, ?_⟩
  · constructor
    · intro hmem
      rcases Bool.eq_false_or_eq_true (w.restoreResult.stderr != "") with hb1 | hb1
      · rcases Bool.eq_false_or_eq_true (strHasSub (strToLower w.restoreResult.stderr) "warning"
            || strHasSub (strToLower w.restoreResult.stderr) "error") with hb2 | hb2
        · exact ⟨by simpa using hb1, hb2⟩
        · unfold restore_dump at hmem
          rw [hb1, hb2] at hmem
          simp at hmem
          rcases hmem with h1 | h2
          · exact absurd h1 (warn_ne_restoring _ _ _)
          · exact absurd h2 (warn_ne_completed _)
      · unfold restore_dump at hmem
        rw [hb1] at hmem
        simp at hmem
        rcases hmem with h1 | h2
        · exact absurd h1 (warn_ne_restoring _ _ _)
        · exact absurd h2 (warn_ne_completed _)
    · rintro ⟨hne, hcond⟩
      exact hmemOf hcond
  · intro hcond
    have hm := hmemOf hcond
    rw [run_eq_ok amb s t w hb]
    simp only [List.mem_cons, List.mem_append]
    tauto
  · rw [run_eq_ok amb s t w hb]

/-- Witness for C7 at the concrete world whose restore stderr is
WARNING: errors ignored on restore. -/
theorem claim_C7_witness :
    Event.logLine ("⚠️  Restore warnings/errors (often ignorable): "
      ++ strTake wWarn.restoreResult.stderr 200 ++ "...")
      ∈ (run_clone_process ambA srcA tgtA wWarn).1
    ∧ (run_clone_process ambA srcA tgtA wWarn).2 = Outcome.success := by
  have h := claim_C7 ambA srcA tgtA wWarn rfl
  exact ⟨h.2.1 (by decide), h.2.2⟩

/-- C8: the verify phase runs the two public-schema count queries and logs
the summary line built from the two counts, any verification exception is
only logged as a warning, and the outcome stays success either way. -/
theorem claim_C8 (amb : EnvMap) (s t : DatabaseConfig) (w : World)
    (h : w.dumpResult.returncode = 0) :
    (∀ n m : Nat, w.verifyOutcome = Except.ok (n, m) →
      Event.logLine ("✓ Verification complete: " ++ toString n ++ " tables, "
        ++ toString m ++ " sequences") ∈ (run_clone_process amb s t w).1
      ∧ Event.query tablesQuery ∈ (run_clone_process amb s t w).1
      ∧ Event.query sequencesQuery ∈ (run_clone_process amb s t w).1)
    ∧ (∀ msg, w.verifyOutcome = Except.error msg →
        Event.logLine ("⚠️  Verification failed: " ++ msg) ∈ (run_clone_process amb s t w).1)
    ∧ (run_clone_process amb s t w).2 = Outcome.success := by
  have hb : (w.dumpResult.returncode != 0) = false := by simp [h]
  refine ⟨?_, ?_, ?_⟩
  · intro n m hv
    have hev : verify_clone w =
        [Event.query tablesQuery, Event.query sequencesQuery,
         Event.logLine ("✓ Verification complete: " ++ toString n ++ " tables, "
           ++ toString m ++ " sequences")] := by
      unfold verify_clone
      rw [hv]
    rw [run_eq_ok amb s t w hb, hev]
    refine ⟨by simp, by simp, by simp⟩
  · intro msg hv
    have hev : verify_clone w = [Event.logLine ("⚠️  Verification failed: " ++ msg)] := by
      unfold verify_clone
      rw [hv]
    rw [run_eq_ok amb s t w hb, hev]
    simp
  · rw [run_eq_ok amb s t w hb]

/-- Witness for C8 at the concrete worlds with counts 5 and 3 and with a
failing verification connection. -/
theorem claim_C8_witness :
    Event.logLine ("✓ Verification complete: " ++ toString 5 ++ " tables, "
      ++ toString 3 ++ " sequences") ∈ (run_clone_process ambA srcA tgtA wOk).1
    ∧ Event.logLine ("⚠️  Verification failed: " ++ "connection refused")
        ∈ (run_clone_process ambA srcA tgtA wVerr).1
    ∧ (run_clone_process ambA srcA tgtA wVerr).2 = Outcome.success := by
  have h1 := claim_C8 ambA srcA tgtA wOk rfl
  have h2 := claim_C8 ambA srcA tgtA wVerr rfl
  exact ⟨(h1.1 5 3 rfl).1, h2.2.1 "connection refused" rfl, h2.2.2⟩

/-- Subprocess invocations of a run with a failing dump. -/
theorem subprocsOf_run_fail (amb : EnvMap) (s t : DatabaseConfig) (w : World)
    (hb : (w.dumpResult.returncode != 0) = true) :
    subprocsOf (run_clone_process amb s t w).1
      = [(dumpCmd s w.dumpFile, s.psql_env amb)] := by
  rw [run_eq_fail amb s t w hb]
  simp [subprocsOf, selSubproc]

/-- Subprocess invocations of a run with a successful dump. -/
theorem subprocsOf_run_ok (amb : EnvMap) (s t : DatabaseConfig) (w : World)
    (hb : (w.dumpResult.returncode != 0) = false) :
    subprocsOf (run_clone_process amb s t w).1
      = [(dumpCmd s w.dumpFile, s.psql_env amb),
         (restoreCmd t w.dumpFile, t.psql_env amb),
         (resetCmd t, t.psql_env amb)] := by
  have h1 := subprocsOf_restore amb t w w.dumpFile
  have h2 := subprocsOf_reset amb t w
  have h3 := subprocsOf_verify w
  rw [run_eq_ok amb s t w hb]
  unfold subprocsOf at h1 h2 h3 ⊢
  simp [List.filterMap_append, selSubproc, h1, h2, h3]

/-- The per-call environment always carries the password under PGPASSWORD. -/
theorem envGet_psql (c : DatabaseConfig) (amb : EnvMap) :
    envGet (c.psql_env amb) "PGPASSWORD" = some c.password := by
  simp [envGet, DatabaseConfig.psql_env, setEnvVar, List.find?]

/-- Counterexample to C5 as stated: in the concrete run the dump
invocation's argument list contains an argument that embeds the source
password pw123, so the password reaches the dump tool through argv and not
only through the PGPASSWORD environment entry. -/
theorem claim_C5_cx :
    (dumpCmd srcA wOk.dumpFile).any (fun a => strHasSub a srcA.password) = true
    ∧ Event.subproc (dumpCmd srcA wOk.dumpFile) (srcA.psql_env ambA)
        ∈ (run_clone_process ambA srcA tgtA wOk).1 := by
  constructor
  · decide
  · rw [run_eq_ok ambA srcA tgtA wOk (by decide)]
    simp

/-- C5 amended: every subprocess invocation of a run carries the relevant
profile password in its PGPASSWORD environment entry, and the restore and
sequence-reset argument lists are independent of the password - but the
dump argument list embeds the source password inside its connection URI
argument. -/
theorem claim_C5 (amb : EnvMap) (s t : DatabaseConfig) (w : World) :
    (∀ pr ∈ subprocsOf (run_clone_process amb s t w).1,
        envGet pr.2 "PGPASSWORD" = some s.password
        ∨ envGet pr.2 "PGPASSWORD" = some t.password)
    ∧ (∀ df p q : String,
        restoreCmd { t with password := p } df = restoreCmd { t with password := q } df)
    ∧ (∀ p q : String, resetCmd { t with password := p } = resetCmd { t with password := q })
    ∧ (dumpCmd s w.dumpFile).any (fun a => strHasSub a s.password) = true := by
  refine ⟨?_, ?_, ?_, ?_⟩
  · intro pr hpr
    cases hb : (w.dumpResult.returncode != 0) with
    | false =>
        rw [subprocsOf_run_ok amb s t w hb] at hpr
        simp at hpr
        rcases hpr with h1 | h2 | h3
        · subst h1
          exact Or.inl (envGet_psql s amb)
        · subst h2
          exact Or.inr (envGet_psql t amb)
        · subst h3
          exact Or.inr (envGet_psql t amb)
    | true =>
        rw [subprocsOf_run_fail amb s t w hb] at hpr
        simp at hpr
        subst hpr
        exact Or.inl (envGet_psql s amb)
  · intro df p q
    rfl
  · intro p q
    rfl
  · have hc : strHasSub s.connection_string s.password = true :=
      strHasSub_of_eq _ ("postgresql://" ++ s.username ++ ":") s.password
        ("@" ++ s.host ++ ":" ++ toString s.port ++ "/" ++ s.database
          ++ (if s.ssl then "?sslmode=require" else ""))
        (by simp [DatabaseConfig.connection_string, String.data_append, List.append_assoc])
    simp [dumpCmd, hc]

/-- Witness for the amended C5 at the concrete successful world. -/
theorem claim_C5_witness :
    envGet ((dumpCmd srcA wOk.dumpFile, DatabaseConfig.psql_env srcA ambA).2) "PGPASSWORD"
      = some srcA.password
    ∨ envGet ((dumpCmd srcA wOk.dumpFile, DatabaseConfig.psql_env srcA ambA).2) "PGPASSWORD"
      = some tgtA.password := by
  have h := claim_C5 ambA srcA tgtA wOk
  exact h.1 (dumpCmd srcA wOk.dumpFile, DatabaseConfig.psql_env srcA ambA)
    (by rw [subprocsOf_run_ok ambA srcA tgtA wOk (by decide)]; simp)

/-- Counterexample to C6 as stated: this profile has useSsl false, yet its
connection URI ends with the SSL query parameter text, because the
database field supplies it - the claimed ends-with iff fails. -/
theorem claim_C6_cx :
    cfgBad.ssl = false
    ∧ strEndsWith cfgBad.connection_string "?sslmode=require" = true := by
  constructor
  · rfl
  · decide

/-- C6 amended: the connection URI embeds host, port, database, username
and password verbatim as substrings; the SSL parameter is appended exactly
when useSsl is true, so the URI ends with it whenever useSsl is true, and
when useSsl is false nothing is appended - though the URI may still end
with that text when a field itself supplies it. -/
theorem claim_C6 (c : DatabaseConfig) :
    strHasSub c.connection_string c.host = true
    ∧ strHasSub c.connection_string (toString c.port) = true
    ∧ strHasSub c.connection_string c.database = true
    ∧ strHasSub c.connection_string c.username = true
    ∧ strHasSub c.connection_string c.password = true
    ∧ (c.ssl = true → strEndsWith c.connection_string "?sslmode=require" = true)
    ∧ (c.ssl = false →
        c.connection_string = "postgresql://" ++ c.username ++ ":" ++ c.password ++ "@"
          ++ c.host ++ ":" ++ toString c.port ++ "/" ++ c.database) := by
  refine ⟨?_, ?_, ?_, ?_, ?_, ?_, ?_⟩
  · exact strHasSub_of_eq _ ("postgresql://" ++ c.username ++ ":" ++ c.password ++ "@")
      c.host
      (":" ++ toString c.port ++ "/" ++ c.database
        ++ (if c.ssl then "?sslmode=require" else ""))
      (by simp [DatabaseConfig.connection_string, String.data_append, List.append_assoc])
  · exact strHasSub_of_eq _
      ("postgresql://" ++ c.username ++ ":" ++ c.password ++ "@" ++ c.host ++ ":")
      (toString c.port)
      ("/" ++ c.database ++ (if c.ssl then "?sslmode=require" else ""))
      (by simp [DatabaseConfig.connection_string, String.data_append, List.append_assoc])
  · exact strHasSub_of_eq _
      ("postgresql://" ++ c.username ++ ":" ++ c.password ++ "@" ++ c.host ++ ":"
        ++ toString c.port ++ "/")
      c.database
      ((if c.ssl then "?sslmode=require" else ""))
      (by simp [DatabaseConfig.connection_string, String.data_append, List.append_assoc])
  · exact strHasSub_of_eq _ "postgresql://" c.username
      (":" ++ c.password ++ "@" ++ c.host ++ ":" ++ toString c.port ++ "/" ++ c.database
        ++ (if c.ssl then "?sslmode=require" else ""))
      (by simp [DatabaseConfig.connection_string, String.data_append, List.append_assoc])
  · exact strHasSub_of_eq _ ("postgresql://" ++ c.username ++ ":") c.password
      ("@" ++ c.host ++ ":" ++ toString c.port ++ "/" ++ c.database
        ++ (if c.ssl then "?sslmode=require" else ""))
      (by simp [DatabaseConfig.connection_string, String.data_append, List.append_assoc])
  · intro hs
    have he : c.connection_string =
        ("postgresql://" ++ c.username ++ ":" ++ c.password ++ "@" ++ c.host ++ ":"
          ++ toString c.port ++ "/" ++ c.database) ++ "?sslmode=require" := by
      simp [DatabaseConfig.connection_string, hs]
    rw [he]
    exact strEndsWith_append _ _
  · intro hs
    simp [DatabaseConfig.connection_string, hs]

/-- Witness for the amended C6 at the concrete SSL target profile. -/
theorem claim_C6_witness :
    strHasSub tgtA.connection_string tgtA.host = true
    ∧ strEndsWith tgtA.connection_string "?sslmode=require" = true := by
  have h := claim_C6 tgtA
  exact ⟨h.1, h.2.2.2.2.2.1 rfl⟩

end DbClone
